import Mathlib

/-!
Verification of the download tool (CLI entry point and plugin tool) against
its specification.

The development shallowly embeds the two source files:
* the CLI program (`parseArgs`, `inferFilenameFromUrl`, `download`), which
  follows redirects itself with a counter bounded by `MAX_REDIRECTS = 5`;
* the plugin tool (`inferFilenameFromUrl`, `execute`), which delegates
  redirect following to the platform `fetch` (modelled by `fetchFollow`,
  cap 20) and writes the body with `mkdir` + `Bun.write`.

HTTP servers are modelled as pure functions from URLs to responses; the
network and filesystem effects of a run are returned as explicit traces
(the list of requested URLs and the list of filesystem operations), so that
claims such as "no file is written" become statements about those traces.
-/

/-- Model of the WHATWG URL record, restricted to the components the code
reads: `protocol` (with trailing colon, as in the platform), `host`,
`pathname`, `search` (with leading question mark or empty) and `hash`
(with leading hash sign or empty). -/
structure Url where
  protocol : String
  host : String
  pathname : String
  search : String
  hash : String
deriving DecidableEq, Repr

/-- Model of `URL.toString()`: protocol (already carrying the colon),
double slash, host, pathname, search, hash. -/
def Url.toString (u : Url) : String :=
  u.protocol ++ "//" ++ u.host ++ u.pathname ++ u.search ++ u.hash

/-- A transport-level failure (connection reset, aborted stream, ...),
identified by an opaque numeric code. -/
structure TransportErr where
  code : Nat
deriving DecidableEq, Repr

deriving instance DecidableEq for Except

/-- Model of one HTTP response as observed by the code: the status code,
the optional `Location` header, and the eventual result of consuming the
body (which may itself fail at transport level). -/
structure Response where
  statusCode : Nat
  location : Option String
  body : Except TransportErr (List Nat)
deriving DecidableEq, Repr

/-- A filesystem operation performed by a run: recursive directory
creation, file creation/truncation (the CLI's `createWriteStream`), or a
completed write of a byte sequence to a path. -/
inductive FsOp where
  | mkdirp (dir : String)
  | fileCreate (path : String)
  | fileWrite (path : String) (bytes : List Nat)
deriving DecidableEq, Repr

/-- Errors surfaced by the CLI: scheme rejection in `parseArgs`, and the
three rejection paths of `download`. -/
inductive CliError where
  | invalidScheme
  | tooManyRedirects
  | downloadFailed (status : Nat)
  | streamError (e : TransportErr)
deriving DecidableEq, Repr

/-- Errors surfaced by the plugin `execute`: scheme rejection, a rejected
`fetch` (e.g. the platform's own redirect cap), a non-2xx final response,
and a failed body read (`arrayBuffer` rejecting). -/
inductive PluginError where
  | unsupportedScheme
  | fetchError
  | downloadFailed (status : Nat)
  | bodyError (e : TransportErr)
deriving DecidableEq, Repr

/-- Result object returned by the plugin `execute` on success. -/
structure TransferResult where
  url : String
  outputPath : String
  bytesWritten : Nat
deriving DecidableEq, Repr

/-- `charsLeading p l` is true when the character list `p` is a prefix of
`l`; used to model string `startsWith`. -/
def charsLeading : List Char → List Char → Bool
  | [], _ => true
  | _ :: _, [] => false
  | c :: cs, d :: ds => c = d && charsLeading cs ds

/-- Model of JavaScript `String.prototype.startsWith`. -/
def strStartsWith (s pre : String) : Bool :=
  charsLeading pre.data s.data

/-- `breakAtChar c l` splits `l` at the first occurrence of `c`, keeping
`c` at the head of the second part (or returns `(l, [])` when absent). -/
def breakAtChar (c : Char) : List Char → List Char × List Char
  | [] => ([], [])
  | x :: xs =>
    if x = c then ([], x :: xs)
    else
      let p := breakAtChar c xs
      (x :: p.1, p.2)

/-- Split a string at the first occurrence of a character, keeping the
character at the head of the second part. -/
def splitFirst (s : String) (c : Char) : String × String :=
  let p := breakAtChar c s.data
  (String.mk p.1, String.mk p.2)

/-- Everything up to and including the last slash of `s` (empty when `s`
has no slash). -/
def upToLastSlash (s : String) : String :=
  String.mk ((s.data.reverse.dropWhile (fun c => c ≠ '/')).reverse)

/-- Model of `node:path` `dirname` for slash-separated paths. -/
def dirname (p : String) : String :=
  let d := upToLastSlash p
  if d = "" then "." else if d = "/" then "/" else String.mk d.data.dropLast

/-- Model of `node:path` `isAbsolute` for slash-separated paths. -/
def isAbsolutePath (p : String) : Bool :=
  strStartsWith p "/"

/-- Model of `node:path` `resolve dir p`, restricted to the dot-free
segments the code produces: an absolute `p` is taken verbatim, a relative
one is joined onto `dir`. -/
def resolvePath (dir p : String) : String :=
  if isAbsolutePath p then p else dir ++ "/" ++ p

/-- Parse an absolute http(s) URL string into a `Url` record; helper for
`resolveUrl`. -/
def parseHttpAbsolute (s : String) : Url :=
  let pr :=
    if strStartsWith s "https://" then ("https:", String.mk (s.data.drop 8))
    else ("http:", String.mk (s.data.drop 7))
  let h := splitFirst pr.2 '#'
  let q := splitFirst h.1 '?'
  let hp := splitFirst q.1 '/'
  { protocol := pr.1, host := hp.1,
    pathname := if hp.2 = "" then "/" else hp.2,
    search := q.2, hash := h.2 }

/-- Model of WHATWG relative URL resolution as performed by
`new URL(loc, base)`, restricted to http(s) bases and to references
without dot segments (the platform additionally normalizes "." and ".."
segments, which the code never produces): an absolute http(s) reference
replaces the whole URL, an absolute-path reference replaces the path, a
relative-path reference replaces the last segment of the base path. -/
def resolveUrl (loc : String) (base : Url) : Url :=
  if strStartsWith loc "http://" || strStartsWith loc "https://" then
    parseHttpAbsolute loc
  else
    let h := splitFirst loc '#'
    let q := splitFirst h.1 '?'
    if strStartsWith q.1 "/" then
      { protocol := base.protocol, host := base.host, pathname := q.1,
        search := q.2, hash := h.2 }
    else if q.1 = "" then
      { protocol := base.protocol, host := base.host,
        pathname := base.pathname,
        search := if q.2 = "" then base.search else q.2, hash := h.2 }
    else
      { protocol := base.protocol, host := base.host,
        pathname := upToLastSlash base.pathname ++ q.1,
        search := q.2, hash := h.2 }

/-- `splitChar c l` splits `l` at every occurrence of `c`; models the
JavaScript `split` with a one-character separator (so the empty list
splits to `[[]]`, mirroring `"".split(c) = [""]`). -/
def splitChar (c : Char) : List Char → List (List Char)
  | [] => [[]]
  | x :: xs =>
    if x = c then [] :: splitChar c xs
    else
      match splitChar c xs with
      | [] => [[x]]
      | p :: ps => (x :: p) :: ps

/-- Model of JavaScript `String.prototype.split` with a one-character
separator. -/
def strSplit (s : String) (c : Char) : List String :=
  (splitChar c s.data).map String.mk

/-- Embedding of `inferFilenameFromUrl` (textually identical in the CLI
and the plugin): the last non-empty slash-separated segment of the URL's
pathname, or `"downloaded-file"` when none exists. -/
def inferFilenameFromUrl (url : Url) : String :=
  ((((strSplit url.pathname '/')).filter (fun s => s != "")).getLast?).getD
    "downloaded-file"

/-- The fixed redirect cap of the CLI (`MAX_REDIRECTS = 5`). -/
def MAX_REDIRECTS : Nat := 5

/-- Model of the JavaScript truthiness test applied to the optional
`Location` header (`undefined` and the empty string are falsy). -/
def locTruthy : Option String → Bool
  | some s => s != ""
  | none => false

/-- The carried `Location` value (defaulting to the empty string; only
read under `locTruthy`). -/
def locVal : Option String → String
  | some s => s
  | none => ""

/-- Embedding of `[301, 302, 303, 307, 308].includes(statusCode)`. -/
def isRedirectCode (s : Nat) : Bool :=
  s == 301 || s == 302 || s == 303 || s == 307 || s == 308

/-- The condition under which the code treats a response as a redirect:
a recognized redirect status together with a truthy `Location` header. -/
def isRedirect (resp : Response) : Bool :=
  isRedirectCode resp.statusCode && locTruthy resp.location

/-- Embedding of the CLI `download(url, output, redirects)`. The server is
a pure function from URLs to responses; the result carries the outcome,
the list of requested URLs, and the list of filesystem operations. -/
def download (srv : Url → Response) (output : String) (url : Url)
    (redirects : Nat) :
    Except CliError Unit × List Url × List FsOp :=
  let response := srv url
  let statusCode := response.statusCode
  let location := response.location
  if isRedirectCode statusCode && locTruthy location then
    if MAX_REDIRECTS ≤ redirects then
      (.error .tooManyRedirects, [url], [])
    else
      let nextUrl := resolveUrl (locVal location) url
      let rest := download srv output nextUrl (redirects + 1)
      (rest.1, url :: rest.2.1, rest.2.2)
  else if statusCode < 200 ∨ 300 ≤ statusCode then
    (.error (.downloadFailed statusCode), [url], [])
  else
    match response.body with
    | .ok bytes =>
      (.ok (), [url],
        [.mkdirp (dirname output), .fileCreate output,
         .fileWrite output bytes])
    | .error e =>
      (.error (.streamError e), [url],
        [.mkdirp (dirname output), .fileCreate output])
termination_by MAX_REDIRECTS - redirects
decreasing_by simp [MAX_REDIRECTS] at *; omega

/-- The final (non-redirect) step of `download`, as a standalone function
for stating lemmas: status handling and the streaming write. -/
def finalStep (resp : Response) (output : String) (url : Url) :
    Except CliError Unit × List Url × List FsOp :=
  if resp.statusCode < 200 ∨ 300 ≤ resp.statusCode then
    (.error (.downloadFailed resp.statusCode), [url], [])
  else
    match resp.body with
    | .ok bytes =>
      (.ok (), [url],
        [.mkdirp (dirname output), .fileCreate output,
         .fileWrite output bytes])
    | .error e =>
      (.error (.streamError e), [url],
        [.mkdirp (dirname output), .fileCreate output])

/-- The redirect cap of the platform `fetch` used by the plugin (the
WHATWG fetch algorithm errors after twenty redirects). -/
def FETCH_MAX_REDIRECTS : Nat := 20

/-- Model of the platform `fetch` in its default `redirect: "follow"`
mode: follow recognized redirects with a truthy `Location`, resolving each
target against the current URL, up to `FETCH_MAX_REDIRECTS`; exceeding the
cap is a network error. Returns the final URL and response together with
the list of requested URLs. -/
def fetchFollow (srv : Url → Response) (url : Url) (redirects : Nat) :
    Except Unit (Url × Response) × List Url :=
  let response := srv url
  if isRedirectCode response.statusCode && locTruthy response.location then
    if FETCH_MAX_REDIRECTS ≤ redirects then (.error (), [url])
    else
      let rest :=
        fetchFollow srv (resolveUrl (locVal response.location) url)
          (redirects + 1)
      (rest.1, url :: rest.2)
  else (.ok (url, response), [url])
termination_by FETCH_MAX_REDIRECTS - redirects
decreasing_by simp [FETCH_MAX_REDIRECTS] at *; omega

/-- Embedding of the plugin's destination resolution (the `outputPath`
expression of `execute`): an explicit absolute path verbatim, an explicit
relative path resolved against the context directory, and otherwise the
filename inferred from the URL resolved against the context directory. -/
def resolveDestination (contextDir : String) (url : Url)
    (outputPathArg : Option String) : String :=
  match outputPathArg with
  | some p => if isAbsolutePath p then p else resolvePath contextDir p
  | none => resolvePath contextDir (inferFilenameFromUrl url)

/-- Embedding of the plugin tool `execute`: scheme validation, destination
resolution, `fetch` (with platform redirect following), the `response.ok`
check, body read, then `mkdir` of the parent directory and the file write.
Returns the outcome with the request and filesystem traces. -/
def execute (srv : Url → Response) (contextDir : String) (url : Url)
    (outputPathArg : Option String) :
    Except PluginError TransferResult × List Url × List FsOp :=
  if ¬(url.protocol = "http:" ∨ url.protocol = "https:") then
    (.error .unsupportedScheme, [], [])
  else
    let outputPath := resolveDestination contextDir url outputPathArg
    match fetchFollow srv url 0 with
    | (.error _, reqs) => (.error .fetchError, reqs, [])
    | (.ok (_, response), reqs) =>
      if ¬(200 ≤ response.statusCode ∧ response.statusCode < 300) then
        (.error (.downloadFailed response.statusCode), reqs, [])
      else
        match response.body with
        | .error e => (.error (.bodyError e), reqs, [])
        | .ok bytes =>
          (.ok { url := url.toString, outputPath := outputPath,
                 bytesWritten := bytes.length },
           reqs,
           [.mkdirp (dirname outputPath), .fileWrite outputPath bytes])

/-- Embedding of the CLI `parseArgs`, restricted to the case where a URL
argument is present and parses (the usage/exit paths are process-level
glue): scheme validation and output-path resolution against the current
working directory. -/
def parseArgs (cwd : String) (url : Url) (outputArg : Option String) :
    Except CliError (String × String) :=
  if ¬(url.protocol = "http:" ∨ url.protocol = "https:") then
    .error .invalidScheme
  else
    .ok (url.toString,
      match outputArg with
      | some o => resolvePath cwd o
      | none => resolvePath cwd (inferFilenameFromUrl url))

/-- Embedding of the CLI `main` flow: `parseArgs` followed by `download`
(starting with redirect counter 0). -/
def cliMain (srv : Url → Response) (cwd : String) (url : Url)
    (outputArg : Option String) :
    Except CliError Unit × List Url × List FsOp :=
  match parseArgs cwd url outputArg with
  | .error e => (.error e, [], [])
  | .ok out => download srv out.2 url 0

/-- `followsChain srv u us` holds when, starting from `u`, each response
along `us` is a recognized redirect with a truthy `Location` header whose
resolution against the current URL is the next URL of `us`. The response
at the last URL of the chain is unconstrained. -/
def followsChain (srv : Url → Response) : Url → List Url → Bool
  | _, [] => true
  | u, v :: vs =>
    isRedirectCode (srv u).statusCode && locTruthy (srv u).location &&
      decide (resolveUrl (locVal (srv u).location) u = v) &&
      followsChain srv v vs

/-- The last URL of a redirect chain starting at `u` and continuing
through `us`. -/
def chainLast (u : Url) : List Url → Url
  | [] => u
  | v :: vs => chainLast v vs

/-- Concrete URL `https://example.com/a`. -/
def urlA : Url := ⟨"https:", "example.com", "/a", "", ""⟩

/-- Concrete URL `https://example.com/b`. -/
def urlB : Url := ⟨"https:", "example.com", "/b", "", ""⟩

/-- Concrete URL `ftp://example.com/a` (unsupported scheme). -/
def urlFtp : Url := ⟨"ftp:", "example.com", "/a", "", ""⟩

/-- Concrete URL `https://example.com/files/report.pdf`. -/
def urlFiles : Url := ⟨"https:", "example.com", "/files/report.pdf", "", ""⟩

/-- Server answering every request with `200` and body `[7, 8]`. -/
def srvOk : Url → Response := fun _ => ⟨200, none, .ok [7, 8]⟩

/-- Server answering every request with `404`. -/
def srv404 : Url → Response := fun _ => ⟨404, none, .ok []⟩

/-- Server answering every request with `301` and no `Location` header. -/
def srv301NoLoc : Url → Response := fun _ => ⟨301, none, .ok []⟩

/-- Server answering every request with `302` and
`Location: /v2/report.pdf`. -/
def srv302 : Url → Response := fun _ => ⟨302, some "/v2/report.pdf", .ok []⟩

/-- Server redirecting `urlA` to `/b` with `302` and answering everything
else with `200` and body `[7, 8]`. -/
def srvHop : Url → Response := fun u =>
  if u = urlA then ⟨302, some "/b", .ok []⟩ else ⟨200, none, .ok [7, 8]⟩

/-- Server redirecting every request with `302` to `/x` prefixed onto the
current pathname, producing an unbounded redirect chain. -/
def srvLoop : Url → Response := fun u =>
  ⟨302, some ("/x" ++ u.pathname), .ok []⟩

/-- Server answering every request with `200` but failing at transport
level while the body is being received. -/
def srvBodyFail : Url → Response := fun _ => ⟨200, none, .error ⟨3⟩⟩

/-- The first six URLs reached from `urlA` under `srvLoop`. -/
def chain6 : List Url :=
  [⟨"https:", "example.com", "/x/a", "", ""⟩,
   ⟨"https:", "example.com", "/x/x/a", "", ""⟩,
   ⟨"https:", "example.com", "/x/x/x/a", "", ""⟩,
   ⟨"https:", "example.com", "/x/x/x/x/a", "", ""⟩,
   ⟨"https:", "example.com", "/x/x/x/x/x/a", "", ""⟩,
   ⟨"https:", "example.com", "/x/x/x/x/x/x/a", "", ""⟩]

theorem finalStep_requests (resp : Response) (out : String) (u : Url) :
    (finalStep resp out u).2.1 = [u] := by
  unfold finalStep
  split
  · rfl
  · split <;> rfl

theorem followsChain_cons {srv : Url → Response} {u v : Url}
    {vs : List Url} (h : followsChain srv u (v :: vs) = true) :
    isRedirect (srv u) = true ∧
      resolveUrl (locVal (srv u).location) u = v ∧
      followsChain srv v vs = true := by
  simp only [followsChain, Bool.and_eq_true, decide_eq_true_eq] at h
  exact ⟨by simp [isRedirect, h.1.1.1, h.1.1.2], h.1.2, h.2⟩

theorem download_step_redirect (srv : Url → Response) (out : String)
    (u : Url) (r : Nat) (h : isRedirect (srv u) = true)
    (hr : r < MAX_REDIRECTS) :
    download srv out u r =
      ((download srv out (resolveUrl (locVal (srv u).location) u)
          (r + 1)).1,
       u :: (download srv out (resolveUrl (locVal (srv u).location) u)
          (r + 1)).2.1,
       (download srv out (resolveUrl (locVal (srv u).location) u)
          (r + 1)).2.2) := by
  rw [download]
  simp only [isRedirect] at h
  simp [h, Nat.not_le.mpr hr]

theorem download_step_toomany (srv : Url → Response) (out : String)
    (u : Url) (r : Nat) (h : isRedirect (srv u) = true)
    (hr : MAX_REDIRECTS ≤ r) :
    download srv out u r = (.error .tooManyRedirects, [u], []) := by
  rw [download]
  simp only [isRedirect] at h
  simp [h, hr]

theorem download_step_final (srv : Url → Response) (out : String)
    (u : Url) (r : Nat) (h : isRedirect (srv u) = false) :
    download srv out u r = finalStep (srv u) out u := by
  rw [download, finalStep]
  simp only [isRedirect] at h
  simp [h]

theorem fetchFollow_step_redirect (srv : Url → Response) (u : Url)
    (r : Nat) (h : isRedirect (srv u) = true)
    (hr : r < FETCH_MAX_REDIRECTS) :
    fetchFollow srv u r =
      ((fetchFollow srv (resolveUrl (locVal (srv u).location) u)
          (r + 1)).1,
       u :: (fetchFollow srv (resolveUrl (locVal (srv u).location) u)
          (r + 1)).2) := by
  rw [fetchFollow]
  simp only [isRedirect] at h
  simp [h, Nat.not_le.mpr hr]

theorem fetchFollow_step_final (srv : Url → Response) (u : Url) (r : Nat)
    (h : isRedirect (srv u) = false) :
    fetchFollow srv u r = (.ok (u, srv u), [u]) := by
  rw [fetchFollow]
  simp only [isRedirect] at h
  simp [h]

theorem download_chain_final (srv : Url → Response) (out : String)
    (us : List Url) :
    ∀ (u : Url) (r : Nat), followsChain srv u us = true →
      us.length + r ≤ MAX_REDIRECTS →
      isRedirect (srv (chainLast u us)) = false →
      download srv out u r =
        ((finalStep (srv (chainLast u us)) out (chainLast u us)).1,
         u :: us,
         (finalStep (srv (chainLast u us)) out (chainLast u us)).2.2) := by
  induction us with
  | nil =>
    intro u r _ _ hfin
    rw [download_step_final srv out u r hfin]
    conv_lhs => rw [show finalStep (srv u) out u =
      ((finalStep (srv u) out u).1, (finalStep (srv u) out u).2.1,
       (finalStep (srv u) out u).2.2) from rfl]
    rw [finalStep_requests]
    rfl
  | cons v vs ih =>
    intro u r hc hlen hfin
    obtain ⟨h1, h2, h3⟩ := followsChain_cons hc
    have hlen' : vs.length + (r + 1) ≤ MAX_REDIRECTS := by
      simp only [List.length_cons] at hlen; omega
    have hr : r < MAX_REDIRECTS := by
      simp only [List.length_cons] at hlen; omega
    rw [download_step_redirect srv out u r h1 hr, h2,
      ih v (r + 1) h3 hlen' hfin]
    rfl

theorem download_chain_toomany (srv : Url → Response) (out : String)
    (us : List Url) :
    ∀ (u : Url) (r : Nat), followsChain srv u us = true →
      MAX_REDIRECTS < us.length + r → r ≤ MAX_REDIRECTS →
      download srv out u r =
        (.error .tooManyRedirects,
         (u :: us).take (MAX_REDIRECTS + 1 - r), []) := by
  induction us with
  | nil =>
    intro u r _ hlen hr
    exact absurd hlen (by simp; omega)
  | cons v vs ih =>
    intro u r hc hlen hr
    obtain ⟨h1, h2, h3⟩ := followsChain_cons hc
    by_cases hcase : r < MAX_REDIRECTS
    · have hlen' : MAX_REDIRECTS < vs.length + (r + 1) := by
        simp only [List.length_cons] at hlen; omega
      rw [download_step_redirect srv out u r h1 hcase, h2,
        ih v (r + 1) h3 hlen' (by omega)]
      have harith : MAX_REDIRECTS + 1 - r = (MAX_REDIRECTS + 1 - (r + 1)) + 1 := by
        omega
      rw [harith, List.take_succ_cons]
    · have hr5 : MAX_REDIRECTS ≤ r := Nat.not_lt.mp hcase
      have hreq : MAX_REDIRECTS + 1 - r = 1 := by omega
      rw [download_step_toomany srv out u r h1 hr5, hreq,
        List.take_succ_cons, List.take_zero]

theorem fetchFollow_chain (srv : Url → Response) (us : List Url) :
    ∀ (u : Url) (r : Nat), followsChain srv u us = true →
      us.length + r ≤ FETCH_MAX_REDIRECTS →
      isRedirect (srv (chainLast u us)) = false →
      fetchFollow srv u r =
        (.ok (chainLast u us, srv (chainLast u us)), u :: us) := by
  induction us with
  | nil =>
    intro u r _ _ hfin
    exact fetchFollow_step_final srv u r hfin
  | cons v vs ih =>
    intro u r hc hlen hfin
    obtain ⟨h1, h2, h3⟩ := followsChain_cons hc
    have hlen' : vs.length + (r + 1) ≤ FETCH_MAX_REDIRECTS := by
      simp only [List.length_cons] at hlen; omega
    have hr : r < FETCH_MAX_REDIRECTS := by
      simp only [List.length_cons] at hlen; omega
    rw [fetchFollow_step_redirect srv u r h1 hr, h2,
      ih v (r + 1) h3 hlen' hfin]
    rfl

/-- A status code strictly below 300 is never a recognized redirect
code. -/
theorem not_redirectCode_of_lt300 {s : Nat} (h : s < 300) :
    isRedirectCode s = false := by
  simp only [isRedirectCode, Bool.or_eq_false_iff, beq_eq_false_iff_ne,
    ne_eq]
  omega

/-- A recognized redirect code is at least 300. -/
theorem redirectCode_ge_300 {s : Nat} (h : isRedirectCode s = true) :
    300 ≤ s := by
  simp only [isRedirectCode, Bool.or_eq_true, beq_iff_eq] at h
  omega

theorem execute_success_chain (srv : Url → Response) (cwd : String)
    (u : Url) (arg : Option String) (us : List Url) (B : List Nat)
    (hs : u.protocol = "http:" ∨ u.protocol = "https:")
    (hc : followsChain srv u us = true)
    (hlen : us.length ≤ FETCH_MAX_REDIRECTS)
    (h2 : 200 ≤ (srv (chainLast u us)).statusCode ∧
      (srv (chainLast u us)).statusCode < 300)
    (hb : (srv (chainLast u us)).body = .ok B) :
    execute srv cwd u arg =
      (.ok ⟨u.toString, resolveDestination cwd u arg, B.length⟩,
       u :: us,
       [.mkdirp (dirname (resolveDestination cwd u arg)),
        .fileWrite (resolveDestination cwd u arg) B]) := by
  have hfin : isRedirect (srv (chainLast u us)) = false := by
    simp [isRedirect, not_redirectCode_of_lt300 h2.2]
  unfold execute
  rw [if_neg (not_not_intro hs),
    fetchFollow_chain srv us u 0 hc (by omega) hfin]
  simp [hb, h2.1, h2.2]

theorem execute_fail_status (srv : Url → Response) (cwd : String)
    (u : Url) (arg : Option String) (us : List Url)
    (hs : u.protocol = "http:" ∨ u.protocol = "https:")
    (hc : followsChain srv u us = true)
    (hlen : us.length ≤ FETCH_MAX_REDIRECTS)
    (hfin : isRedirect (srv (chainLast u us)) = false)
    (hbad : (srv (chainLast u us)).statusCode < 200 ∨
      300 ≤ (srv (chainLast u us)).statusCode) :
    execute srv cwd u arg =
      (.error (.downloadFailed (srv (chainLast u us)).statusCode),
       u :: us, []) := by
  unfold execute
  rw [if_neg (not_not_intro hs),
    fetchFollow_chain srv us u 0 hc (by omega) hfin]
  have hn : ¬(200 ≤ (srv (chainLast u us)).statusCode ∧
      (srv (chainLast u us)).statusCode < 300) := by omega
  simp [hn]

/-- C9: in the plugin tool implementation, no filesystem operation
(neither parent-directory creation nor file write) is performed until the
entire response body has been received successfully: every run of
`execute` either returns a success result (after which the directory
creation and the single complete write are its only filesystem
operations), or its filesystem trace is empty — in particular a transport
error while receiving the body leaves the filesystem unchanged, and the
plugin never leaves a truncated file. -/
theorem C9_no_fs_op_on_failure (srv : Url → Response)
    (cwd : String) (u : Url) (arg : Option String) :
    (∃ res, (execute srv cwd u arg).1 = .ok res) ∨
      (execute srv cwd u arg).2.2 = [] := by
  unfold execute
  by_cases hs : u.protocol = "http:" ∨ u.protocol = "https:"
  · rw [if_neg (not_not_intro hs)]
    rcases hf : fetchFollow srv u 0 with ⟨res, reqs⟩
    rcases res with ⟨e'⟩ | ⟨f, resp⟩
    · right; rfl
    · by_cases hok : 200 ≤ resp.statusCode ∧ resp.statusCode < 300
      · rcases hbody : resp.body with ⟨e'⟩ | ⟨B⟩
        · right; simp [hbody, hok.1, hok.2]
        · left
          exact ⟨⟨u.toString, resolveDestination cwd u arg, B.length⟩,
            by simp [hbody, hok.1, hok.2]⟩
      · right
        have hn : ¬(200 ≤ resp.statusCode ∧ resp.statusCode < 300) := hok
        simp [hn]
  · rw [if_pos hs]
    right; rfl

theorem finalStep_bad {resp : Response} (out : String) (u : Url)
    (h : resp.statusCode < 200 ∨ 300 ≤ resp.statusCode) :
    finalStep resp out u =
      (.error (.downloadFailed resp.statusCode), [u], []) := by
  unfold finalStep
  rw [if_pos h]

theorem finalStep_ok {resp : Response} {B : List Nat} (out : String)
    (u : Url)
    (h2 : 200 ≤ resp.statusCode ∧ resp.statusCode < 300)
    (hb : resp.body = .ok B) :
    finalStep resp out u =
      (.ok (), [u],
       [.mkdirp (dirname out), .fileCreate out, .fileWrite out B]) := by
  unfold finalStep
  rw [if_neg (by omega), hb]

theorem finalStep_bodyErr {resp : Response} {e : TransportErr}
    (out : String) (u : Url)
    (h2 : 200 ≤ resp.statusCode ∧ resp.statusCode < 300)
    (hb : resp.body = .error e) :
    finalStep resp out u =
      (.error (.streamError e), [u],
       [.mkdirp (dirname out), .fileCreate out]) := by
  unfold finalStep
  rw [if_neg (by omega), hb]

theorem download_requests_cons (srv : Url → Response) (out : String)
    (u : Url) (r : Nat) :
    ∃ t, (download srv out u r).2.1 = u :: t := by
  by_cases h1 : isRedirect (srv u) = true
  · by_cases h2 : MAX_REDIRECTS ≤ r
    · exact ⟨[], by rw [download_step_toomany srv out u r h1 h2]⟩
    · exact ⟨_, by
        rw [download_step_redirect srv out u r h1 (Nat.not_le.mp h2)]⟩
  · exact ⟨[], by
      rw [download_step_final srv out u r (by simpa using h1)]
      exact finalStep_requests _ _ _⟩

/-- C1 (amended): for every redirect chain of length at most 5 whose
final response is 2xx (and whose body is received), `execute` succeeds,
all chain URLs are requested, and the url field of the returned
`TransferResult` is the originally requested URL (as normalized by URL
parsing) — it is not updated to the post-redirect URL. -/
theorem C1_url_is_original (srv : Url → Response) (cwd : String)
    (u : Url) (us : List Url) (B : List Nat)
    (hs : u.protocol = "http:" ∨ u.protocol = "https:")
    (hc : followsChain srv u us = true)
    (hlen : us.length ≤ MAX_REDIRECTS)
    (h2 : 200 ≤ (srv (chainLast u us)).statusCode ∧
      (srv (chainLast u us)).statusCode < 300)
    (hb : (srv (chainLast u us)).body = .ok B) :
    (execute srv cwd u none).1 =
      .ok ⟨u.toString, resolveDestination cwd u none, B.length⟩ ∧
    (execute srv cwd u none).2.1 = u :: us := by
  have h20 : us.length ≤ FETCH_MAX_REDIRECTS := by
    simp [MAX_REDIRECTS] at hlen
    simp [FETCH_MAX_REDIRECTS]
    omega
  rw [execute_success_chain srv cwd u none us B hs hc h20 h2 hb]
  exact ⟨rfl, rfl⟩

theorem C1_witness :
    (urlA.protocol = "http:" ∨ urlA.protocol = "https:") ∧
    followsChain srvHop urlA [urlB] = true ∧
    [urlB].length ≤ MAX_REDIRECTS ∧
    (200 ≤ (srvHop (chainLast urlA [urlB])).statusCode ∧
      (srvHop (chainLast urlA [urlB])).statusCode < 300) ∧
    (srvHop (chainLast urlA [urlB])).body = .ok [7, 8] ∧
    ((execute srvHop "/base" urlA none).1 =
      .ok ⟨urlA.toString, resolveDestination "/base" urlA none,
        ([7, 8] : List Nat).length⟩ ∧
     (execute srvHop "/base" urlA none).2.1 = urlA :: [urlB]) :=
  ⟨by decide, by decide, by decide, by decide, by decide,
   C1_url_is_original srvHop "/base" urlA [urlB] [7, 8] (by decide)
     (by decide) (by decide) (by decide) (by decide)⟩

/-- C1 counterexample: for the server redirecting `/a` to `/b` with 302
(a redirect chain of length 1 ≤ 5 ending in a 2xx response), the plugin
succeeds but the url field of the returned `TransferResult` is the
originally requested URL `https://example.com/a`, not the last URL of the
chain `https://example.com/b`: the claim as stated is false. -/
theorem C1_counterexample :
    followsChain srvHop urlA [urlB] = true ∧
    [urlB].length ≤ MAX_REDIRECTS ∧
    (200 ≤ (srvHop (chainLast urlA [urlB])).statusCode ∧
      (srvHop (chainLast urlA [urlB])).statusCode < 300) ∧
    (execute srvHop "/base" urlA none).1 =
      .ok ⟨"https://example.com/a", "/base/a", 2⟩ ∧
    chainLast urlA [urlB] = urlB ∧
    Url.toString urlB = "https://example.com/b" ∧
    "https://example.com/a" ≠ "https://example.com/b" := by
  refine ⟨by decide, by decide, by decide, ?_, by decide, by decide,
    by decide⟩
  rw [execute_success_chain srvHop "/base" urlA none [urlB] [7, 8]
    (by decide) (by decide) (by decide) (by decide) (by decide)]
  decide

/-- C2: for every redirect chain of length greater than 5, the CLI
`download` fails with the too-many-redirects error before issuing another
request — exactly the first `MAX_REDIRECTS + 1 = 6` URLs of the chain are
requested (the counter runs from 0 to 5 and is never exceeded) — and no
filesystem operation is performed. -/
theorem C2_too_many_redirects (srv : Url → Response) (out : String)
    (u : Url) (us : List Url)
    (hc : followsChain srv u us = true)
    (hlen : MAX_REDIRECTS < us.length) :
    download srv out u 0 =
      (.error .tooManyRedirects,
       (u :: us).take (MAX_REDIRECTS + 1), []) := by
  have h := download_chain_toomany srv out us u 0 hc (by omega) (by omega)
  simpa using h

theorem C2_witness :
    followsChain srvLoop urlA chain6 = true ∧
    MAX_REDIRECTS < chain6.length ∧
    download srvLoop "/out/file" urlA 0 =
      (.error .tooManyRedirects,
       (urlA :: chain6).take (MAX_REDIRECTS + 1), []) :=
  ⟨by decide, by decide,
   C2_too_many_redirects srvLoop "/out/file" urlA chain6 (by decide)
     (by decide)⟩

/-- C3: for every final (non-redirect) response whose status code is
outside [200, 300), both the CLI `download` and the plugin `execute` fail
with the download-failed error carrying that status code, and the
filesystem trace is empty (nothing is created or modified at the output
path). -/
theorem C3_non2xx_fails (srv : Url → Response) (out cwd : String)
    (u : Url) (us : List Url)
    (hs : u.protocol = "http:" ∨ u.protocol = "https:")
    (hc : followsChain srv u us = true)
    (hlen : us.length ≤ MAX_REDIRECTS)
    (hfin : isRedirectCode (srv (chainLast u us)).statusCode = false)
    (hbad : (srv (chainLast u us)).statusCode < 200 ∨
      300 ≤ (srv (chainLast u us)).statusCode) :
    download srv out u 0 =
      (.error (.downloadFailed (srv (chainLast u us)).statusCode),
       u :: us, []) ∧
    execute srv cwd u none =
      (.error (.downloadFailed (srv (chainLast u us)).statusCode),
       u :: us, []) := by
  have hfin' : isRedirect (srv (chainLast u us)) = false := by
    simp [isRedirect, hfin]
  have h20 : us.length ≤ FETCH_MAX_REDIRECTS := by
    simp [MAX_REDIRECTS] at hlen
    simp [FETCH_MAX_REDIRECTS]
    omega
  refine ⟨?_, execute_fail_status srv cwd u none us hs hc h20 hfin' hbad⟩
  rw [download_chain_final srv out us u 0 hc (by omega) hfin',
    finalStep_bad out (chainLast u us) hbad]

theorem C3_witness :
    (urlA.protocol = "http:" ∨ urlA.protocol = "https:") ∧
    followsChain srv404 urlA [] = true ∧
    ([] : List Url).length ≤ MAX_REDIRECTS ∧
    isRedirectCode (srv404 (chainLast urlA [])).statusCode = false ∧
    ((srv404 (chainLast urlA [])).statusCode < 200 ∨
      300 ≤ (srv404 (chainLast urlA [])).statusCode) ∧
    download srv404 "/out/file" urlA 0 =
      (.error (.downloadFailed 404), urlA :: [], []) ∧
    execute srv404 "/base" urlA none =
      (.error (.downloadFailed 404), urlA :: [], []) := by
  refine ⟨by decide, by decide, by decide, by decide, by decide, ?_, ?_⟩
  · exact (C3_non2xx_fails srv404 "/out/file" "/base" urlA [] (by decide)
      (by decide) (by decide) (by decide) (by decide)).1
  · exact (C3_non2xx_fails srv404 "/out/file" "/base" urlA [] (by decide)
      (by decide) (by decide) (by decide) (by decide)).2

/-- C4: for every input URL whose scheme is neither http nor https, the
plugin `execute` fails with the unsupported-scheme error and the CLI
fails with the invalid-scheme error, and in both cases no network request
is issued and no filesystem operation is performed (both traces are
empty). -/
theorem C4_unsupported_scheme (srv : Url → Response) (cwd : String)
    (u : Url) (arg : Option String)
    (h1 : u.protocol ≠ "http:") (h2 : u.protocol ≠ "https:") :
    execute srv cwd u arg = (.error .unsupportedScheme, [], []) ∧
    cliMain srv cwd u arg = (.error .invalidScheme, [], []) := by
  have hn : ¬(u.protocol = "http:" ∨ u.protocol = "https:") := by
    tauto
  constructor
  · unfold execute
    rw [if_pos hn]
  · unfold cliMain parseArgs
    rw [if_pos hn]

theorem C4_witness :
    urlFtp.protocol ≠ "http:" ∧ urlFtp.protocol ≠ "https:" ∧
    execute srvOk "/base" urlFtp none =
      (.error .unsupportedScheme, [], []) ∧
    cliMain srvOk "/base" urlFtp none =
      (.error .invalidScheme, [], []) := by
  refine ⟨by decide, by decide, ?_, ?_⟩
  · exact (C4_unsupported_scheme srvOk "/base" urlFtp none (by decide)
      (by decide)).1
  · exact (C4_unsupported_scheme srvOk "/base" urlFtp none (by decide)
      (by decide)).2

/-- C5: for every successful download whose response body is the byte
sequence B, the plugin writes exactly B to the resolved output path and
reports bytesWritten equal to the byte length of B, and the CLI streams
exactly B into the output file. -/
theorem C5_roundtrip (srv : Url → Response) (out cwd : String)
    (u : Url) (us : List Url) (B : List Nat)
    (hs : u.protocol = "http:" ∨ u.protocol = "https:")
    (hc : followsChain srv u us = true)
    (hlen : us.length ≤ MAX_REDIRECTS)
    (h2 : 200 ≤ (srv (chainLast u us)).statusCode ∧
      (srv (chainLast u us)).statusCode < 300)
    (hb : (srv (chainLast u us)).body = .ok B) :
    execute srv cwd u none =
      (.ok ⟨u.toString, resolveDestination cwd u none, B.length⟩,
       u :: us,
       [.mkdirp (dirname (resolveDestination cwd u none)),
        .fileWrite (resolveDestination cwd u none) B]) ∧
    download srv out u 0 =
      (.ok (), u :: us,
       [.mkdirp (dirname out), .fileCreate out, .fileWrite out B]) := by
  have hfin' : isRedirect (srv (chainLast u us)) = false := by
    simp [isRedirect, not_redirectCode_of_lt300 h2.2]
  have h20 : us.length ≤ FETCH_MAX_REDIRECTS := by
    simp [MAX_REDIRECTS] at hlen
    simp [FETCH_MAX_REDIRECTS]
    omega
  refine ⟨execute_success_chain srv cwd u none us B hs hc h20 h2 hb, ?_⟩
  rw [download_chain_final srv out us u 0 hc (by omega) hfin',
    finalStep_ok out (chainLast u us) h2 hb]

theorem C5_witness :
    (urlA.protocol = "http:" ∨ urlA.protocol = "https:") ∧
    followsChain srvOk urlA [] = true ∧
    ([] : List Url).length ≤ MAX_REDIRECTS ∧
    (200 ≤ (srvOk (chainLast urlA [])).statusCode ∧
      (srvOk (chainLast urlA [])).statusCode < 300) ∧
    (srvOk (chainLast urlA [])).body = .ok [7, 8] ∧
    (execute srvOk "/base" urlA none =
      (.ok ⟨urlA.toString, resolveDestination "/base" urlA none,
        ([7, 8] : List Nat).length⟩,
       urlA :: [],
       [.mkdirp (dirname (resolveDestination "/base" urlA none)),
        .fileWrite (resolveDestination "/base" urlA none) [7, 8]]) ∧
     download srvOk "/out/file" urlA 0 =
      (.ok (), urlA :: [],
       [.mkdirp (dirname "/out/file"), .fileCreate "/out/file",
        .fileWrite "/out/file" [7, 8]])) :=
  ⟨by decide, by decide, by decide, by decide, by decide,
   C5_roundtrip srvOk "/out/file" "/base" urlA [] [7, 8] (by decide)
     (by decide) (by decide) (by decide) (by decide)⟩

/-- C6: for every source URL and base directory, destination resolution
with the output path omitted resolves, against the base directory, the
last non-empty segment of the URL's path component (segments split on
slash, empty segments discarded), and the fixed fallback name
`downloaded-file` when the URL path has no non-empty segment. -/
theorem C6_destination_from_last_segment (dir : String) (u : Url) :
    resolveDestination dir u none =
      match ((strSplit u.pathname '/').filter
          (fun s => s != "")).getLast? with
      | some seg => resolvePath dir seg
      | none => resolvePath dir "downloaded-file" := by
  unfold resolveDestination inferFilenameFromUrl
  cases h : ((strSplit u.pathname '/').filter
      (fun s => s != "")).getLast? <;> simp [h]

/-- C7: for every redirect response (status in {301, 302, 303, 307, 308})
carrying a (non-empty) Location value, the next requested URL is the
Location value resolved against the current URL, so relative Location
values are supported; in particular `/v2/report.pdf` received for
`https://example.com/files/report.pdf` resolves to
`https://example.com/v2/report.pdf`. -/
theorem C7_location_resolved (srv : Url → Response) (out : String)
    (u : Url) (loc : String) (r : Nat)
    (hst : isRedirectCode (srv u).statusCode = true)
    (hloc : (srv u).location = some loc) (hne : loc ≠ "")
    (hr : r < MAX_REDIRECTS) :
    (download srv out u r).2.1.get? 1 = some (resolveUrl loc u) ∧
    resolveUrl "/v2/report.pdf" urlFiles =
      ⟨"https:", "example.com", "/v2/report.pdf", "", ""⟩ := by
  refine ⟨?_, by decide⟩
  have hred : isRedirect (srv u) = true := by
    simp [isRedirect, hst, locTruthy, hloc, hne]
  rw [download_step_redirect srv out u r hred hr, hloc]
  simp only [locVal]
  obtain ⟨t, ht⟩ := download_requests_cons srv out (resolveUrl loc u)
    (r + 1)
  rw [ht]
  rfl

theorem C7_witness :
    isRedirectCode (srv302 urlFiles).statusCode = true ∧
    (srv302 urlFiles).location = some "/v2/report.pdf" ∧
    ("/v2/report.pdf" : String) ≠ "" ∧
    0 < MAX_REDIRECTS ∧
    ((download srv302 "/out/file" urlFiles 0).2.1.get? 1 =
      some (resolveUrl "/v2/report.pdf" urlFiles) ∧
     resolveUrl "/v2/report.pdf" urlFiles =
      ⟨"https:", "example.com", "/v2/report.pdf", "", ""⟩) :=
  ⟨by decide, by decide, by decide, by decide,
   C7_location_resolved srv302 "/out/file" urlFiles "/v2/report.pdf" 0
     (by decide) (by decide) (by decide) (by decide)⟩

/-- C8: for every response whose status code is a recognized redirect
code but which lacks a Location header, `download` does not treat it as a
redirect: it fails through standard status handling with the
download-failed error carrying that 3xx status code, requesting only the
current URL and performing no filesystem operation. -/
theorem C8_redirect_without_location (srv : Url → Response)
    (out : String) (u : Url) (r : Nat)
    (hst : isRedirectCode (srv u).statusCode = true)
    (hloc : (srv u).location = none) :
    download srv out u r =
      (.error (.downloadFailed (srv u).statusCode), [u], []) := by
  have hred : isRedirect (srv u) = false := by
    simp [isRedirect, locTruthy, hloc]
  rw [download_step_final srv out u r hred,
    finalStep_bad out u (Or.inr (redirectCode_ge_300 hst))]

theorem C8_witness :
    isRedirectCode (srv301NoLoc urlA).statusCode = true ∧
    (srv301NoLoc urlA).location = none ∧
    download srv301NoLoc "/out/file" urlA 0 =
      (.error (.downloadFailed 301), [urlA], []) :=
  ⟨by decide, by decide,
   C8_redirect_without_location srv301NoLoc "/out/file" urlA 0
     (by decide) (by decide)⟩

/-- C10: the inferred filename depends only on the URL's path component —
two URLs with equal pathnames infer the same filename, whatever their
query strings and fragments — and the URL
`https://example.com/files/report.pdf?v=1#top` still resolves, with the
output path omitted, to `<baseDir>/report.pdf`. -/
theorem C10_query_fragment_irrelevant (u v : Url) (dir : String)
    (h : u.pathname = v.pathname) :
    inferFilenameFromUrl u = inferFilenameFromUrl v ∧
    resolveDestination dir
        ⟨"https:", "example.com", "/files/report.pdf", "?v=1", "#top"⟩
        none =
      dir ++ "/report.pdf" := by
  constructor
  · unfold inferFilenameFromUrl
    rw [h]
  · have h1 : inferFilenameFromUrl
        ⟨"https:", "example.com", "/files/report.pdf", "?v=1", "#top"⟩ =
        "report.pdf" := by decide
    unfold resolveDestination
    rw [h1]
    unfold resolvePath
    rw [if_neg (by decide), String.append_assoc]
    rfl

theorem C10_witness :
    Url.pathname ⟨"https:", "example.com", "/files/report.pdf",
        "?v=1", "#top"⟩ =
      Url.pathname urlFiles ∧
    (inferFilenameFromUrl
        ⟨"https:", "example.com", "/files/report.pdf", "?v=1", "#top"⟩ =
      inferFilenameFromUrl urlFiles ∧
     resolveDestination "/base"
        ⟨"https:", "example.com", "/files/report.pdf", "?v=1", "#top"⟩
        none =
      "/base" ++ "/report.pdf") :=
  ⟨by decide,
   C10_query_fragment_irrelevant
     ⟨"https:", "example.com", "/files/report.pdf", "?v=1", "#top"⟩
     urlFiles "/base" (by decide)⟩
